import Mathlib

/-!
Verification development for the GreenRoute AI backend
(`src/backend/main.py`, `src/backend/ml_engine.py`, `src/backend/rag_engine.py`).

Numbers are modelled as exact rationals (`ℚ`); Python's `round(x, n)` and the
`:.0f` format specifier round half to even, which `pyRound` models.  The
classifier output of `predict_delay_probability` and the two generative-AI
calls made inside the optimize handler are modelled as oracle parameters,
since they are external to the deterministic control flow being verified;
the oracles may fail (`Except`), which models an exception raised inside the
handler's `try` block.
-/

namespace GreenRoute

/-- Python's `round` to an integer: round half to even (banker's rounding). -/
def pyRound (x : ℚ) : ℤ :=
  if x - ⌊x⌋ < 1/2 then ⌊x⌋
  else if 1/2 < x - ⌊x⌋ then ⌊x⌋ + 1
  else if ⌊x⌋ % 2 = 0 then ⌊x⌋ else ⌊x⌋ + 1

/-- Python's `round(x, 1)`. -/
def round1 (x : ℚ) : ℚ := (pyRound (x * 10) : ℚ) / 10

/-- Python's `round(x, 2)`. -/
def round2 (x : ℚ) : ℚ := (pyRound (x * 100) : ℚ) / 100

/-! ## Data model (`main.py` pydantic models) -/

/-- `RouteOption` (main.py lines 71-81). -/
structure RouteOption where
  id : String
  name : String
  distance_km : ℚ
  eta_mins : ℚ
  traffic_factor : ℤ
  weather_risk : ℚ
  emissions : ℚ
  delay_probability : ℚ
  score : ℚ
  coordinates : List (List ℚ)
deriving Repr, DecidableEq

/-- `OptimizationResponse` (main.py lines 83-90). -/
structure OptimizationResponse where
  recommended_route : RouteOption
  alternatives : List RouteOption
  action : String
  customer_message : String
  carbon_saved : ℚ
  ai_explanation : String
  timestamp : String
deriving Repr, DecidableEq

/-- A hard-coded route candidate before per-request processing
(main.py lines 148-167). -/
structure RouteCandidate where
  id : String
  name : String
  distance_km : ℚ
  base_eta : ℚ
  coords : List (List ℚ)
deriving Repr, DecidableEq

def start_point : List ℚ := [40.7128, -74.0060]
def end_point : List ℚ := [40.7357, -74.1724]

/-- Route A "I-78 Express" (main.py lines 156-160). -/
def routeA : RouteCandidate :=
  { id := "A", name := "I-78 Express", distance_km := 18.5, base_eta := 25,
    coords := [start_point, [40.72, -74.05], [40.73, -74.10], end_point] }

/-- Route B "US-1 Truck Route" (main.py lines 163-167). -/
def routeB : RouteCandidate :=
  { id := "B", name := "US-1 Truck Route", distance_km := 24.2, base_eta := 35,
    coords := [start_point, [40.75, -74.02], [40.78, -74.08], [40.74, -74.15], end_point] }

/-- Body of the loop in `generate_route_options` (main.py lines 171-195):
`tf` is the per-route jittered traffic factor, `wr` the shared weather risk,
`dp` the delay probability returned by `predict_delay_probability` (0.5 when
that call raises). -/
def processRoute (r : RouteCandidate) (tf : ℤ) (wr dp : ℚ) : RouteOption :=
  let emissions := r.distance_km * ((max 1 tf : ℤ) : ℚ) * 0.25
  let adj_eta := r.base_eta * (1 + (tf : ℚ)/20) * (1 + wr)
  let score := 0.5 * adj_eta + 0.3 * emissions + 0.2 * dp * 100
  { id := r.id, name := r.name, distance_km := r.distance_km,
    eta_mins := round1 adj_eta,
    traffic_factor := max 1 tf,
    weather_risk := wr,
    emissions := round2 emissions,
    delay_probability := round2 dp,
    score := round2 score,
    coordinates := r.coords }

/-- Python's stable `sorted(processed_routes, key=lambda x: x.score)`
(main.py line 197). -/
def sortRoutes (l : List RouteOption) : List RouteOption :=
  List.mergeSort l (fun x y => decide (x.score ≤ y.score))

/-- `generate_route_options` (main.py lines 148-197).  `tf0` is the ambient
`sim_state["traffic_factor"]`, `jA`/`jB` the two draws of
`random.randint(-1, 1)`, `wr` the ambient weather risk, `pA`/`pB` the
classifier outputs for the two routes. -/
def generate_route_options (tf0 jA jB : ℤ) (wr pA pB : ℚ) : List RouteOption :=
  sortRoutes [processRoute routeA (tf0 + jA) wr pA,
              processRoute routeB (tf0 + jB) wr pB]

/-- Action selection on the recommended route's (rounded) delay probability
(main.py lines 216-220). -/
def selectAction (p : ℚ) : String :=
  if p > 0.75 then "DELAY_DISPATCH"
  else if p > 0.5 then "REROUTE"
  else "PROCEED"

/-- `max(o.emissions for o in options)` over a nonempty list given as
head/tail (main.py line 222). -/
def maxEmissions (best : RouteOption) (alts : List RouteOption) : ℚ :=
  alts.foldl (fun acc o => max acc o.emissions) best.emissions

/-- The `try` body of `optimize_route` after route generation
(main.py lines 213-241): pick `options[0]` as best, the rest as alternatives,
select the action, compute `carbon_saved`, attach the two AI texts.
`explain` and `msg` are the results of the external calls
`get_rag_explanation` and `get_customer_message`; an `Except.error` models an
exception raised while producing them (caught by the handler's `except`
clause), as does the impossible empty-options case (`options[0]` raising
`IndexError`). -/
def buildResponse (options : List RouteOption) (explain msg : Except String String) :
    Except String OptimizationResponse :=
  match options with
  | [] => .error "list index out of range"
  | best :: alts =>
    let action := selectAction best.delay_probability
    let worst_emission := maxEmissions best alts
    let saved := worst_emission - best.emissions
    match explain with
    | .error e => .error e
    | .ok expl =>
      match msg with
      | .error e => .error e
      | .ok m =>
        .ok { recommended_route := best, alternatives := alts, action := action,
              customer_message := m, carbon_saved := saved,
              ai_explanation := expl, timestamp := "Now" }

/-- The whole `try` body of `optimize_route` (main.py lines 211-241). -/
def optimize_body (tf0 jA jB : ℤ) (wr pA pB : ℚ) (explain msg : Except String String) :
    Except String OptimizationResponse :=
  buildResponse (generate_route_options tf0 jA jB wr pA pB) explain msg

/-- The sentinel response built in `optimize_route`'s `except` clause
(main.py lines 245-256). -/
def errorResponse (e : String) : OptimizationResponse :=
  { recommended_route :=
      { id := "ERR", name := "Error", distance_km := 0, eta_mins := 0,
        traffic_factor := 0, weather_risk := 0, emissions := 0,
        delay_probability := 0, score := 0, coordinates := [] },
    alternatives := [],
    action := "ERROR",
    customer_message := "System Error",
    carbon_saved := 0,
    ai_explanation := "Error: " ++ e,
    timestamp := "Error" }

/-- `optimize_route` (main.py lines 209-256): run the `try` body; on any
exception return the sentinel response instead of failing the request. -/
def runOptimize (body : Except String OptimizationResponse) : OptimizationResponse :=
  match body with
  | .ok r => r
  | .error e => errorResponse e

def optimize_route (tf0 jA jB : ℤ) (wr pA pB : ℚ) (explain msg : Except String String) :
    OptimizationResponse :=
  runOptimize (optimize_body tf0 jA jB wr pA pB explain msg)

/-! ## Environment simulator (`simulation_loop`, main.py lines 99-116) -/

def weather_types : List (String × ℚ) :=
  [("Clear", 0.1), ("Rain", 0.6), ("Stormy", 0.9), ("Cloudy", 0.3)]

def traffic_types : List (String × ℤ) :=
  [("Low", 2), ("Moderate", 5), ("High", 9)]

/-- The shared `sim_state` dictionary (main.py lines 62-68). -/
structure SimState where
  traffic_level : String
  traffic_factor : ℤ
  weather_condition : String
  weather_risk : ℚ
deriving Repr, DecidableEq

/-- Initial `sim_state` (main.py lines 62-68). -/
def init_sim_state : SimState :=
  { traffic_level := "Low", traffic_factor := 2,
    weather_condition := "Clear", weather_risk := 0.1 }

/-- One update of the simulation loop: `random.choice` over the two pair
lists, then overwrite all four fields (main.py lines 106-112). -/
def simulation_step (w : Fin weather_types.length) (t : Fin traffic_types.length)
    (_s : SimState) : SimState :=
  let wp := weather_types.get w
  let tp := traffic_types.get t
  { weather_condition := wp.1, weather_risk := wp.2,
    traffic_level := tp.1, traffic_factor := tp.2 }

/-- The state after a finite prefix of simulator updates, starting from the
initial state; each list element is one iteration's pair of random choices. -/
def simulation_run (choices : List (Fin weather_types.length × Fin traffic_types.length)) :
    SimState :=
  choices.foldl (fun s c => simulation_step c.1 c.2 s) init_sim_state

/-- The invariant claimed of the simulator state: label and numeric factor
always form one of the defined pairs. -/
def sim_invariant (s : SimState) : Prop :=
  (s.weather_condition, s.weather_risk) ∈ weather_types ∧
  (s.traffic_level, s.traffic_factor) ∈ traffic_types

/-! ## AI-Explanation Engine fallback (`rag_engine.py`) -/

/-- The fallback branch of `get_customer_message` (rag_engine.py lines 71-75),
taken when the generative client or API key is unavailable:
`f"Update: Delay probability {delay_prob*100:.0f}%. Action: {action}."`. -/
def get_customer_message (delay_prob : ℚ) (action : String) : String :=
  "Update: Delay probability " ++ toString (pyRound (delay_prob * 100)) ++
    "%. Action: " ++ action ++ "."

/-! ## Fleet store (`main.py` lines 258-348) -/

/-- `VehicleInput` / one CSV row (main.py lines 92-96, 315-320). -/
structure Vehicle where
  vehicle_id : String
  type : String
  capacity : ℤ
  status : String
deriving Repr, DecidableEq

/-- A vehicle record as returned by the `/fleet` listing, with the ephemeral
`assigned_orders` overlay (main.py lines 291-301). -/
structure FleetRow extends Vehicle where
  assigned_orders : List String
deriving Repr, DecidableEq

/-- The mock vehicle substituted when the store is empty
(main.py lines 284-287). -/
def mock_vehicle : Vehicle :=
  { vehicle_id := "V-MOCK-1", type := "Mock Van", capacity := 50, status := "Active" }

/-- The fixed demo order list (main.py line 290). -/
def demo_orders : List String :=
  ["ORD-991", "ORD-992", "ORD-993", "ORD-994", "ORD-995"]

/-- `vehicles[v_idx]["assigned_orders"].append(order)` — append one order to
the vehicle at the given index (main.py lines 293-301). -/
def pushOrder : List FleetRow → Nat → String → List FleetRow
  | [], _, _ => []
  | v :: vs, 0, o => { v with assigned_orders := v.assigned_orders ++ [o] } :: vs
  | v :: vs, n+1, o => v :: pushOrder vs n o

/-- The round-robin demo assignment loop (main.py lines 290-301): every row
starts without `assigned_orders` (created empty on first touch), then order
`i` goes to vehicle `i % len(vehicles)`. -/
def assignOrders (vs : List Vehicle) : List FleetRow :=
  (demo_orders.enum).foldl
    (fun acc io => pushOrder acc (io.1 % vs.length) io.2)
    (vs.map (fun v => { toVehicle := v, assigned_orders := [] }))

/-- `get_fleet_assignments` (main.py lines 258-303) over the parsed CSV
contents: `file = []` models both a missing file and one with zero rows, in
which case the mock vehicle is substituted before assignment. -/
def get_fleet_assignments (file : List Vehicle) : List FleetRow :=
  let vehicles := if file.isEmpty then [mock_vehicle] else file
  assignOrders vehicles

/-- `add_vehicle` (main.py lines 309-344): append one row to the CSV store
(the file is created first when absent, which `[]` models). -/
def add_vehicle (file : List Vehicle) (v : Vehicle) : List Vehicle :=
  file ++ [v]

/-! ## Helper lemmas -/

lemma sortRoutes_pair (a b : RouteOption) :
    sortRoutes [a, b] = if a.score ≤ b.score then [a, b] else [b, a] := by
  simp [sortRoutes, List.mergeSort, List.merge]

lemma generate_eq (tf0 jA jB : ℤ) (wr pA pB : ℚ) :
    generate_route_options tf0 jA jB wr pA pB =
      if (processRoute routeA (tf0 + jA) wr pA).score ≤
          (processRoute routeB (tf0 + jB) wr pB).score then
        [processRoute routeA (tf0 + jA) wr pA, processRoute routeB (tf0 + jB) wr pB]
      else
        [processRoute routeB (tf0 + jB) wr pB, processRoute routeA (tf0 + jA) wr pA] := by
  rw [generate_route_options, sortRoutes_pair]

/-- The two options generated per request are exactly the processed routes A
and B, in one of the two orders, and the list is sorted by score. -/
lemma generate_pair (tf0 jA jB : ℤ) (wr pA pB : ℚ) :
    ∃ x y, generate_route_options tf0 jA jB wr pA pB = [x, y] ∧
      x.score ≤ y.score ∧
      ((x = processRoute routeA (tf0 + jA) wr pA ∧
        y = processRoute routeB (tf0 + jB) wr pB) ∨
       (x = processRoute routeB (tf0 + jB) wr pB ∧
        y = processRoute routeA (tf0 + jA) wr pA)) := by
  rw [generate_eq]
  split
  · exact ⟨_, _, rfl, by assumption, Or.inl ⟨rfl, rfl⟩⟩
  · refine ⟨_, _, rfl, le_of_not_le (by assumption), Or.inr ⟨rfl, rfl⟩⟩

/-- Inversion of the non-error path of the optimize handler. -/
lemma optimize_body_ok (tf0 jA jB : ℤ) (wr pA pB : ℚ)
    (explain msg : Except String String) (r : OptimizationResponse)
    (h : optimize_body tf0 jA jB wr pA pB explain msg = .ok r) :
    ∃ best alt,
      generate_route_options tf0 jA jB wr pA pB = [best, alt] ∧
      best.score ≤ alt.score ∧
      r.recommended_route = best ∧ r.alternatives = [alt] ∧
      r.action = selectAction best.delay_probability ∧
      r.carbon_saved = max best.emissions alt.emissions - best.emissions ∧
      r.timestamp = "Now" := by
  obtain ⟨x, y, hxy, hsc, -⟩ := generate_pair tf0 jA jB wr pA pB
  replace h : buildResponse (generate_route_options tf0 jA jB wr pA pB) explain msg = .ok r := h
  rw [hxy] at h
  cases explain with
  | error e => simp [buildResponse] at h
  | ok expl =>
    cases msg with
    | error e => simp [buildResponse] at h
    | ok m =>
      simp only [buildResponse, Except.ok.injEq] at h
      subst h
      exact ⟨x, y, hxy, hsc, rfl, rfl, rfl, rfl, rfl⟩

/-- Case analysis of the action-selection branch (main.py lines 216-220). -/
lemma selectAction_spec (p : ℚ) :
    (selectAction p = "DELAY_DISPATCH" ↔ 0.75 < p) ∧
    (selectAction p = "REROUTE" ↔ 0.5 < p ∧ p ≤ 0.75) ∧
    (selectAction p = "PROCEED" ↔ p ≤ 0.5) := by
  unfold selectAction
  by_cases h1 : (0.75 : ℚ) < p
  · rw [if_pos h1]
    exact ⟨⟨fun _ => h1, fun _ => rfl⟩,
           ⟨fun hc => absurd hc (by decide), fun hc => absurd h1 (not_lt.mpr hc.2)⟩,
           ⟨fun hc => absurd hc (by decide),
            fun hc => absurd h1 (not_lt.mpr (le_trans hc (by norm_num)))⟩⟩
  · rw [if_neg h1]
    by_cases h2 : (0.5 : ℚ) < p
    · rw [if_pos h2]
      exact ⟨⟨fun hc => absurd hc (by decide), fun hc => absurd hc h1⟩,
             ⟨fun _ => ⟨h2, not_lt.mp h1⟩, fun _ => rfl⟩,
             ⟨fun hc => absurd hc (by decide), fun hc => absurd h2 (not_lt.mpr hc)⟩⟩
    · rw [if_neg h2]
      exact ⟨⟨fun hc => absurd hc (by decide), fun hc => absurd hc h1⟩,
             ⟨fun hc => absurd hc (by decide), fun hc => absurd hc.1 h2⟩,
             ⟨fun _ => not_lt.mp h2, fun _ => rfl⟩⟩

/-- `pyRound` agrees with the floor when the fractional part is below one
half. -/
lemma pyRound_eq_of_lt_half (n : ℤ) (x : ℚ) (h1 : (n : ℚ) ≤ x) (h2 : x < n + 1/2) :
    pyRound x = n := by
  have hfl : ⌊x⌋ = n := by
    rw [Int.floor_eq_iff]
    constructor
    · exact_mod_cast h1
    · calc x < (n : ℚ) + 1/2 := h2
        _ ≤ n + 1 := by norm_num
  rw [pyRound, hfl]
  rw [if_pos]
  rw [sub_lt_iff_lt_add]
  calc x < (n : ℚ) + 1/2 := h2
    _ = 1/2 + n := by ring

/-! ## A concrete optimize run, used to witness the claim theorems -/

/-- Route option A under ambient traffic 2, zero jitter, weather risk 0.1 and
classifier output 0.5. -/
def optionA : RouteOption := processRoute routeA 2 (1/10) (1/2)

/-- Route option B under the same ambient conditions. -/
def optionB : RouteOption := processRoute routeB 2 (1/10) (1/2)

lemma sample_score_le :
    (processRoute routeA 2 (1/10) (1/2)).score ≤ (processRoute routeB 2 (1/10) (1/2)).score := by
  norm_num [processRoute, routeA, routeB, round2, pyRound]

lemma sampleGen_eq :
    generate_route_options 2 0 0 (1/10) (1/2) (1/2) = [optionA, optionB] := by
  rw [generate_eq, show ((2:ℤ) + 0) = 2 from rfl, if_pos sample_score_le]
  rfl

/-- The optimize response produced by the sample run. -/
def sampleResponse : OptimizationResponse :=
  { recommended_route := optionA, alternatives := [optionB], action := "PROCEED",
    customer_message := "M", carbon_saved := 57/20, ai_explanation := "E",
    timestamp := "Now" }

lemma sampleBody_eq :
    optimize_body 2 0 0 (1/10) (1/2) (1/2) (.ok "E") (.ok "M") = .ok sampleResponse := by
  rw [optimize_body, generate_eq, show ((2:ℤ) + 0) = 2 from rfl, if_pos sample_score_le]
  norm_num [buildResponse, sampleResponse, optionA, optionB, maxEmissions,
    selectAction, processRoute, routeA, routeB, round2, round1, pyRound]

lemma sampleErrorBody_eq :
    optimize_body 2 0 0 (1/10) (1/2) (1/2) (.error "boom") (.ok "M") = .error "boom" := by
  rw [optimize_body, generate_eq, show ((2:ℤ) + 0) = 2 from rfl, if_pos sample_score_le]
  simp [buildResponse]

/-! ## Claim theorems -/

/-- Claim C1: on the non-error path of `/optimize`, `carbon_saved` equals the
maximum of `emissions` over all generated route options (the recommended one
and the alternatives) minus the recommended route's `emissions`, and this
value is non-negative. -/
theorem optimize_carbon_saved_max_sub_nonneg (tf0 jA jB : ℤ) (wr pA pB : ℚ)
    (explain msg : Except String String) (r : OptimizationResponse)
    (h : optimize_body tf0 jA jB wr pA pB explain msg = .ok r) :
    r.carbon_saved =
      maxEmissions r.recommended_route r.alternatives - r.recommended_route.emissions ∧
    0 ≤ r.carbon_saved := by
  obtain ⟨best, alt, -, -, hrec, halts, -, hcs, -⟩ :=
    optimize_body_ok tf0 jA jB wr pA pB explain msg r h
  rw [hrec, halts, hcs]
  constructor
  · rfl
  · exact sub_nonneg.mpr (le_max_left _ _)

/-- Witness for C1 on the concrete sample run. -/
theorem optimize_carbon_saved_max_sub_nonneg_witness :
    sampleResponse.carbon_saved =
      maxEmissions sampleResponse.recommended_route sampleResponse.alternatives -
        sampleResponse.recommended_route.emissions ∧
    0 ≤ sampleResponse.carbon_saved :=
  optimize_carbon_saved_max_sub_nonneg 2 0 0 (1/10) (1/2) (1/2) (.ok "E") (.ok "M")
    sampleResponse sampleBody_eq

/-- Claim C2: on the non-error path of `/optimize`, with `p` the recommended
route's `delay_probability` field, the action is `DELAY_DISPATCH` iff
`p > 0.75`, `REROUTE` iff `0.5 < p ≤ 0.75`, and `PROCEED` iff `p ≤ 0.5`. -/
theorem optimize_action_policy (tf0 jA jB : ℤ) (wr pA pB : ℚ)
    (explain msg : Except String String) (r : OptimizationResponse)
    (h : optimize_body tf0 jA jB wr pA pB explain msg = .ok r) :
    (r.action = "DELAY_DISPATCH" ↔ r.recommended_route.delay_probability > 0.75) ∧
    (r.action = "REROUTE" ↔
      (0.5 < r.recommended_route.delay_probability ∧
       r.recommended_route.delay_probability ≤ 0.75)) ∧
    (r.action = "PROCEED" ↔ r.recommended_route.delay_probability ≤ 0.5) := by
  obtain ⟨best, alt, -, -, hrec, -, hact, -, -⟩ :=
    optimize_body_ok tf0 jA jB wr pA pB explain msg r h
  rw [hact, hrec]
  exact selectAction_spec best.delay_probability

/-- Witness for C2 on the concrete sample run. -/
theorem optimize_action_policy_witness :
    (sampleResponse.action = "DELAY_DISPATCH" ↔
      sampleResponse.recommended_route.delay_probability > 0.75) ∧
    (sampleResponse.action = "REROUTE" ↔
      (0.5 < sampleResponse.recommended_route.delay_probability ∧
       sampleResponse.recommended_route.delay_probability ≤ 0.75)) ∧
    (sampleResponse.action = "PROCEED" ↔
      sampleResponse.recommended_route.delay_probability ≤ 0.5) :=
  optimize_action_policy 2 0 0 (1/10) (1/2) (1/2) (.ok "E") (.ok "M")
    sampleResponse sampleBody_eq

/-- Claim C3: on the non-error path of `/optimize` there is exactly one
recommended route (by construction of the response) and exactly one
alternative, whose score is at least the recommended route's score: the
options are sorted ascending by score, the first taken as recommended and
the rest as alternatives. -/
theorem optimize_sorted_unique_alternative (tf0 jA jB : ℤ) (wr pA pB : ℚ)
    (explain msg : Except String String) (r : OptimizationResponse)
    (h : optimize_body tf0 jA jB wr pA pB explain msg = .ok r) :
    ∃ alt, r.alternatives = [alt] ∧
      r.recommended_route.score ≤ alt.score ∧
      generate_route_options tf0 jA jB wr pA pB = [r.recommended_route, alt] := by
  obtain ⟨best, alt, hgen, hsc, hrec, halts, -, -, -⟩ :=
    optimize_body_ok tf0 jA jB wr pA pB explain msg r h
  exact ⟨alt, halts, by rw [hrec]; exact hsc, by rw [hrec]; exact hgen⟩

/-- Witness for C3 on the concrete sample run. -/
theorem optimize_sorted_unique_alternative_witness :
    ∃ alt, sampleResponse.alternatives = [alt] ∧
      sampleResponse.recommended_route.score ≤ alt.score ∧
      generate_route_options 2 0 0 (1/10) (1/2) (1/2) =
        [sampleResponse.recommended_route, alt] :=
  optimize_sorted_unique_alternative 2 0 0 (1/10) (1/2) (1/2) (.ok "E") (.ok "M")
    sampleResponse sampleBody_eq

/-- Claim C8: whenever the body of the optimize operation fails with an
exception, the handler still returns the well-formed sentinel response:
route id "ERR", all numeric fields zero, empty coordinates, no alternatives,
action "ERROR", the generic customer message, and the exception text embedded
in `ai_explanation`; the error never escapes (`optimize_route` is total). -/
theorem optimize_error_path_wellformed (tf0 jA jB : ℤ) (wr pA pB : ℚ)
    (explain msg : Except String String) (e : String)
    (h : optimize_body tf0 jA jB wr pA pB explain msg = .error e) :
    optimize_route tf0 jA jB wr pA pB explain msg = errorResponse e ∧
    (errorResponse e).recommended_route.id = "ERR" ∧
    (errorResponse e).recommended_route.distance_km = 0 ∧
    (errorResponse e).recommended_route.eta_mins = 0 ∧
    (errorResponse e).recommended_route.traffic_factor = 0 ∧
    (errorResponse e).recommended_route.weather_risk = 0 ∧
    (errorResponse e).recommended_route.emissions = 0 ∧
    (errorResponse e).recommended_route.delay_probability = 0 ∧
    (errorResponse e).recommended_route.score = 0 ∧
    (errorResponse e).recommended_route.coordinates = [] ∧
    (errorResponse e).alternatives = [] ∧
    (errorResponse e).action = "ERROR" ∧
    (errorResponse e).customer_message = "System Error" ∧
    (errorResponse e).ai_explanation = "Error: " ++ e ∧
    (errorResponse e).timestamp = "Error" := by
  refine ⟨?_, rfl, rfl, rfl, rfl, rfl, rfl, rfl, rfl, rfl, rfl, rfl, rfl, rfl, rfl⟩
  rw [optimize_route, h]
  rfl

/-- Witness for C8 on a concrete failing run. -/
theorem optimize_error_path_wellformed_witness :
    optimize_route 2 0 0 (1/10) (1/2) (1/2) (.error "boom") (.ok "M") =
      errorResponse "boom" ∧
    (errorResponse "boom").recommended_route.id = "ERR" ∧
    (errorResponse "boom").recommended_route.distance_km = 0 ∧
    (errorResponse "boom").recommended_route.eta_mins = 0 ∧
    (errorResponse "boom").recommended_route.traffic_factor = 0 ∧
    (errorResponse "boom").recommended_route.weather_risk = 0 ∧
    (errorResponse "boom").recommended_route.emissions = 0 ∧
    (errorResponse "boom").recommended_route.delay_probability = 0 ∧
    (errorResponse "boom").recommended_route.score = 0 ∧
    (errorResponse "boom").recommended_route.coordinates = [] ∧
    (errorResponse "boom").alternatives = [] ∧
    (errorResponse "boom").action = "ERROR" ∧
    (errorResponse "boom").customer_message = "System Error" ∧
    (errorResponse "boom").ai_explanation = "Error: " ++ "boom" ∧
    (errorResponse "boom").timestamp = "Error" :=
  optimize_error_path_wellformed 2 0 0 (1/10) (1/2) (1/2) (.error "boom") (.ok "M")
    "boom" sampleErrorBody_eq

/-- Claim C10: the `timestamp` field of every optimize response is a constant
string, "Now" on the non-error path and "Error" on the error path. -/
theorem optimize_timestamp_constant (tf0 jA jB : ℤ) (wr pA pB : ℚ)
    (explain msg : Except String String) :
    (∀ r, optimize_body tf0 jA jB wr pA pB explain msg = .ok r →
      (optimize_route tf0 jA jB wr pA pB explain msg).timestamp = "Now") ∧
    (∀ e, optimize_body tf0 jA jB wr pA pB explain msg = .error e →
      (optimize_route tf0 jA jB wr pA pB explain msg).timestamp = "Error") := by
  constructor
  · intro r h
    obtain ⟨-, -, -, -, -, -, -, -, ht⟩ :=
      optimize_body_ok tf0 jA jB wr pA pB explain msg r h
    rw [optimize_route, h]
    exact ht
  · intro e h
    rw [optimize_route, h]
    rfl

/-- Witness for C10: both timestamp branches realised on concrete runs. -/
theorem optimize_timestamp_constant_witness :
    (optimize_route 2 0 0 (1/10) (1/2) (1/2) (.ok "E") (.ok "M")).timestamp = "Now" ∧
    (optimize_route 2 0 0 (1/10) (1/2) (1/2) (.error "boom") (.ok "M")).timestamp =
      "Error" :=
  ⟨(optimize_timestamp_constant 2 0 0 (1/10) (1/2) (1/2) (.ok "E") (.ok "M")).1
      sampleResponse sampleBody_eq,
   (optimize_timestamp_constant 2 0 0 (1/10) (1/2) (1/2) (.error "boom") (.ok "M")).2
      "boom" sampleErrorBody_eq⟩

/-- Claim C6: with no generative client or API key configured,
`get_customer_message` returns the deterministic templated message, with the
percentage rounded to a whole number; at `delay_prob = 0.8`,
`action = "REROUTE"` it is exactly
"Update: Delay probability 80%. Action: REROUTE.". -/
theorem customer_message_fallback :
    get_customer_message (4/5) "REROUTE" =
      "Update: Delay probability 80%. Action: REROUTE." ∧
    ∀ (p : ℚ) (a : String), get_customer_message p a =
      "Update: Delay probability " ++ toString (pyRound (p * 100)) ++
        "%. Action: " ++ a ++ "." := by
  constructor
  · have h : pyRound (4/5 * 100) = 80 := by norm_num [pyRound]
    rw [get_customer_message, h]
    rfl
  · intro p a
    rfl

/-- Each simulator update lands in one of the defined weather/traffic pairs. -/
lemma sim_step_invariant (w : Fin weather_types.length) (t : Fin traffic_types.length)
    (s : SimState) : sim_invariant (simulation_step w t s) := by
  constructor
  · show ((weather_types.get w).1, (weather_types.get w).2) ∈ weather_types
    rw [Prod.mk.eta]
    exact weather_types.get_mem _ _
  · show ((traffic_types.get t).1, (traffic_types.get t).2) ∈ traffic_types
    rw [Prod.mk.eta]
    exact traffic_types.get_mem _ _

lemma sim_foldl_invariant :
    ∀ (l : List (Fin weather_types.length × Fin traffic_types.length)) (s : SimState),
      sim_invariant s →
      sim_invariant (l.foldl (fun s c => simulation_step c.1 c.2 s) s) := by
  intro l
  induction l with
  | nil => exact fun s hs => hs
  | cons c t ih => exact fun s _ => ih _ (sim_step_invariant c.1 c.2 s)

/-- Claim C7: starting from the initial state (Low/2/Clear/0.1), after every
finite sequence of simulator updates the shared state's weather pair is one
of {(Clear,0.1), (Rain,0.6), (Stormy,0.9), (Cloudy,0.3)} and its traffic
pair one of {(Low,2), (Moderate,5), (High,9)}: label and numeric value always
match as a pair. -/
theorem simulation_state_invariant
    (choices : List (Fin weather_types.length × Fin traffic_types.length)) :
    sim_invariant (simulation_run choices) := by
  refine sim_foldl_invariant choices init_sim_state ⟨?_, ?_⟩
  · show ("Clear", (0.1 : ℚ)) ∈ weather_types
    simp [weather_types]
  · show ("Low", (2 : ℤ)) ∈ traffic_types
    simp [traffic_types]

lemma pushOrder_map (vs : List FleetRow) (i : Nat) (o : String) :
    (pushOrder vs i o).map FleetRow.toVehicle = vs.map FleetRow.toVehicle := by
  induction vs generalizing i with
  | nil => rfl
  | cons v t ih =>
    cases i with
    | zero => rfl
    | succ n => simp [pushOrder, ih n]

lemma foldl_pushOrder_map (n : ℕ) (l : List (ℕ × String)) :
    ∀ rows : List FleetRow,
      ((l.foldl (fun acc io => pushOrder acc (io.1 % n) io.2) rows).map
        FleetRow.toVehicle) = rows.map FleetRow.toVehicle := by
  induction l with
  | nil => exact fun rows => rfl
  | cons c t ih =>
    intro rows
    rw [List.foldl_cons, ih, pushOrder_map]

/-- The round-robin order assignment never changes a vehicle's persisted
fields: projecting the overlay away gives back the input roster. -/
lemma assignOrders_map (vs : List Vehicle) :
    (assignOrders vs).map FleetRow.toVehicle = vs := by
  rw [assignOrders, foldl_pushOrder_map, List.map_map]
  exact List.map_id vs

/-- Claim C5: a vehicle added via `/fleet/add` with vehicle_id "V-100",
type "Truck", capacity 20, status "Active" appears in the subsequent `/fleet`
listing with exactly those field values, whatever the prior store contents. -/
theorem fleet_add_roundtrip (file : List Vehicle) :
    ∃ row ∈ get_fleet_assignments
        (add_vehicle file ⟨"V-100", "Truck", 20, "Active"⟩),
      row.vehicle_id = "V-100" ∧ row.type = "Truck" ∧
      row.capacity = 20 ∧ row.status = "Active" := by
  have hv : (⟨"V-100", "Truck", 20, "Active"⟩ : Vehicle) ∈
      add_vehicle file ⟨"V-100", "Truck", 20, "Active"⟩ := by
    simp [add_vehicle]
  rw [get_fleet_assignments]
  rw [if_neg (by simp [add_vehicle])]
  have hmem : (⟨"V-100", "Truck", 20, "Active"⟩ : Vehicle) ∈
      (assignOrders (add_vehicle file ⟨"V-100", "Truck", 20, "Active"⟩)).map
        FleetRow.toVehicle := by
    rw [assignOrders_map]
    exact hv
  obtain ⟨row, hrow, hrowv⟩ := List.mem_map.mp hmem
  exact ⟨row, hrow,
    congrArg Vehicle.vehicle_id hrowv,
    congrArg Vehicle.type hrowv,
    congrArg Vehicle.capacity hrowv,
    congrArg Vehicle.status hrowv⟩

/-- The emissions field of every processed route is the formula rounded to
2 decimal places; the `max` inside the formula is idempotent against the
already-floored `traffic_factor` field. -/
lemma processRoute_emissions_field (rc : RouteCandidate) (tf : ℤ) (wr dp : ℚ) :
    (processRoute rc tf wr dp).emissions =
      round2 ((processRoute rc tf wr dp).distance_km *
        ((max 1 (processRoute rc tf wr dp).traffic_factor : ℤ) : ℚ) * 0.25) := by
  show round2 (rc.distance_km * ((max 1 tf : ℤ) : ℚ) * 0.25) =
    round2 (rc.distance_km * ((max 1 (max 1 tf) : ℤ) : ℚ) * 0.25)
  rw [← max_assoc, max_self]

/-- Claim C4 as stated is false on the code: at ambient traffic factor 1
(within [1,10]), zero jitter and weather risk 0.1 (within [0,1]), route A's
emissions field is `round(18.5 * 1 * 0.25, 2) = 4.62`, not the exact formula
value 4.625. -/
theorem emissions_formula_counterexample :
    ¬ (∀ o ∈ generate_route_options 1 0 0 (1/10) (1/2) (1/2),
        o.emissions = o.distance_km * ((max 1 o.traffic_factor : ℤ) : ℚ) * 0.25) := by
  intro hall
  have hgen1 : generate_route_options 1 0 0 (1/10) (1/2) (1/2) =
      [processRoute routeA 1 (1/10) (1/2), processRoute routeB 1 (1/10) (1/2)] := by
    rw [generate_eq, show ((1:ℤ) + 0) = 1 from rfl,
        if_pos (by norm_num [processRoute, routeA, routeB, round2, pyRound])]
  have hA := hall (processRoute routeA 1 (1/10) (1/2))
    (by rw [hgen1]; exact List.mem_cons_self _ _)
  norm_num [processRoute, routeA, round2, pyRound] at hA

/-- Claim C4, amended: for every ambient traffic factor in [1,10], jitter in
{-1,0,1} and weather risk in [0,1], each generated route option's emissions
field equals `distance_km * max(1, traffic_factor) * 0.25` rounded half-even
to 2 decimal places (Python's `round(…, 2)`), where `traffic_factor` is that
option's per-route jittered traffic factor. -/
theorem emissions_formula_rounded (tf0 jA jB : ℤ) (wr pA pB : ℚ)
    (_htf1 : 1 ≤ tf0) (_htf10 : tf0 ≤ 10)
    (_hjA1 : -1 ≤ jA) (_hjA2 : jA ≤ 1) (_hjB1 : -1 ≤ jB) (_hjB2 : jB ≤ 1)
    (_hwr0 : 0 ≤ wr) (_hwr1 : wr ≤ 1) :
    ∀ o ∈ generate_route_options tf0 jA jB wr pA pB,
      o.emissions =
        round2 (o.distance_km * ((max 1 o.traffic_factor : ℤ) : ℚ) * 0.25) := by
  intro o ho
  obtain ⟨x, y, hxy, -, hcase⟩ := generate_pair tf0 jA jB wr pA pB
  rw [hxy] at ho
  have hox : o = x ∨ o = y := by simpa using ho
  have hpr : o = processRoute routeA (tf0 + jA) wr pA ∨
      o = processRoute routeB (tf0 + jB) wr pB := by
    rcases hcase with ⟨hx, hy⟩ | ⟨hx, hy⟩ <;> rcases hox with rfl | rfl <;>
      simp [hx, hy]
  rcases hpr with rfl | rfl <;> exact processRoute_emissions_field _ _ _ _

/-- Witness for the amended C4 at ambient traffic 2, zero jitter, weather
risk 0.1. -/
theorem emissions_formula_rounded_witness :
    optionA.emissions =
      round2 (optionA.distance_km * ((max 1 optionA.traffic_factor : ℤ) : ℚ) * 0.25) :=
  emissions_formula_rounded 2 0 0 (1/10) (1/2) (1/2) (by decide) (by decide)
    (by decide) (by decide) (by decide) (by decide) (by norm_num) (by norm_num)
    optionA (by rw [sampleGen_eq]; exact List.mem_cons_self _ _)

/-- When both oracle calls succeed the optimize body always succeeds. -/
lemma optimize_body_isOk (tf0 jA jB : ℤ) (wr pA pB : ℚ) (ex m : String) :
    ∃ r, optimize_body tf0 jA jB wr pA pB (.ok ex) (.ok m) = .ok r := by
  obtain ⟨x, y, hxy, -, -⟩ := generate_pair tf0 jA jB wr pA pB
  rw [optimize_body, hxy]
  exact ⟨_, rfl⟩

/-- On an all-ok run, the response's action is the action selected from the
(rounded) delay-probability field of one of the two processed routes. -/
lemma optimize_route_action_eq (tf0 jA jB : ℤ) (wr pA pB : ℚ) (ex m : String) :
    ∃ best,
      (best = processRoute routeA (tf0 + jA) wr pA ∨
       best = processRoute routeB (tf0 + jB) wr pB) ∧
      (optimize_route tf0 jA jB wr pA pB (.ok ex) (.ok m)).action =
        selectAction best.delay_probability := by
  obtain ⟨r, hr⟩ := optimize_body_isOk tf0 jA jB wr pA pB ex m
  obtain ⟨best, alt, hgen, -, -, -, hact, -, -⟩ :=
    optimize_body_ok tf0 jA jB wr pA pB (.ok ex) (.ok m) r hr
  obtain ⟨x, y, hxy, -, hcase⟩ := generate_pair tf0 jA jB wr pA pB
  rw [hgen] at hxy
  have hbx : best = x := by injection hxy with h1 _
  refine ⟨best, ?_, ?_⟩
  · rcases hcase with ⟨hx, -⟩ | ⟨hx, -⟩
    · exact Or.inl (hbx.trans hx)
    · exact Or.inr (hbx.trans hx)
  · rw [optimize_route, hr]
    exact hact

lemma round2_between_half (p : ℚ) (h1 : (0.5 : ℚ) < p) (h2 : p < 0.505) :
    round2 p = 0.5 := by
  have h : pyRound (p * 100) = 50 :=
    pyRound_eq_of_lt_half 50 (p * 100) (by push_cast; linarith) (by push_cast; linarith)
  rw [round2, h]
  norm_num

lemma round2_between_threequarters (p : ℚ) (h1 : (0.75 : ℚ) < p) (h2 : p < 0.755) :
    round2 p = 0.75 := by
  have h : pyRound (p * 100) = 75 :=
    pyRound_eq_of_lt_half 75 (p * 100) (by push_cast; linarith) (by push_cast; linarith)
  rw [round2, h]
  norm_num

/-- Claim C9: the action policy is applied to the delay probability rounded
to 2 decimal places, not to the raw classifier output: when both raw outputs
lie in (0.5, 0.505) the action is PROCEED, and when both lie in
(0.75, 0.755) the action is REROUTE, although the raw values exceed the
stated thresholds. -/
theorem action_uses_rounded_probability :
    (∀ (tf0 jA jB : ℤ) (wr pA pB : ℚ) (ex m : String),
        0.5 < pA → pA < 0.505 → 0.5 < pB → pB < 0.505 →
        (optimize_route tf0 jA jB wr pA pB (.ok ex) (.ok m)).action = "PROCEED") ∧
    (∀ (tf0 jA jB : ℤ) (wr pA pB : ℚ) (ex m : String),
        0.75 < pA → pA < 0.755 → 0.75 < pB → pB < 0.755 →
        (optimize_route tf0 jA jB wr pA pB (.ok ex) (.ok m)).action = "REROUTE") := by
  constructor
  · intro tf0 jA jB wr pA pB ex m h1 h2 h3 h4
    obtain ⟨best, hbest, hact⟩ := optimize_route_action_eq tf0 jA jB wr pA pB ex m
    rw [hact]
    have hdp : best.delay_probability = 0.5 := by
      rcases hbest with rfl | rfl
      · exact round2_between_half pA h1 h2
      · exact round2_between_half pB h3 h4
    rw [hdp]
    norm_num [selectAction]
  · intro tf0 jA jB wr pA pB ex m h1 h2 h3 h4
    obtain ⟨best, hbest, hact⟩ := optimize_route_action_eq tf0 jA jB wr pA pB ex m
    rw [hact]
    have hdp : best.delay_probability = 0.75 := by
      rcases hbest with rfl | rfl
      · exact round2_between_threequarters pA h1 h2
      · exact round2_between_threequarters pB h3 h4
    rw [hdp]
    norm_num [selectAction]

/-- Witness for C9: concrete raw probabilities 0.501 and 0.751. -/
theorem action_uses_rounded_probability_witness :
    (optimize_route 2 0 0 (1/10) (501/1000) (501/1000) (.ok "E") (.ok "M")).action =
      "PROCEED" ∧
    (optimize_route 2 0 0 (1/10) (751/1000) (751/1000) (.ok "E") (.ok "M")).action =
      "REROUTE" :=
  ⟨action_uses_rounded_probability.1 2 0 0 (1/10) (501/1000) (501/1000) "E" "M"
      (by norm_num) (by norm_num) (by norm_num) (by norm_num),
   action_uses_rounded_probability.2 2 0 0 (1/10) (751/1000) (751/1000) "E" "M"
      (by norm_num) (by norm_num) (by norm_num) (by norm_num)⟩

end GreenRoute
